import Mathlib

/-!
Verification development for the sentry taskworker worker and the VictorOps
notification plugin.

The worker model covers: TaskActivation / ProcessingResult records, the task
registry lookup, the child-process executor loop (deadline enforcement,
current-task state, at-most-once deduplication, processed-task counting,
shutdown handling) and the result reporter (transient-RPC retry, piggybacked
next-task submission).

The VictorOps part embeds the level-to-message_type selection of
`VictorOpsPlugin.notify_users` (src/sentry_plugins/victorops/plugin.py).
-/

namespace Sentry

/-! ## VictorOps plugin: level selection in notify_users

Embedded from src/src/sentry_plugins/victorops/plugin.py, lines 91-97:

    level = event.get_tag("level")
    if level in ("info", "debug"):
        message_type = "INFO"
    if level == "warning":
        message_type = "WARNING"
    else:
        message_type = "CRITICAL"

The second `if` is not an `elif`: its `else` arm runs whenever the level is
not "warning", overwriting any "INFO" assigned by the first `if`.
-/

set_option linter.unusedVariables false in
/-- The level-to-message_type selection of `VictorOpsPlugin.notify_users`.
`level` is the event's "level" tag (`none` when the tag is absent). -/
def notify_users_message_type (level : Option String) : String :=
  -- `if level in ("info", "debug"): message_type = "INFO"`
  let message_type : Option String :=
    if level == some "info" || level == some "debug" then some "INFO" else none
  -- `if level == "warning": ... else: ...` rebinds message_type unconditionally
  let message_type : String :=
    if level == some "warning" then "WARNING" else "CRITICAL"
  message_type

/-! ## Taskworker data model

The worker scheduling/executor code (sentry/taskworker/worker.py and
sentry/taskworker/workerchild.py) is not part of the provided sources; only
its test suite (src/tests/sentry/taskworker/test_worker.py) is. The
definitions below are modelled from the spec (sections 3-7), with behaviour
details pinned by that test suite.
-/

/-- Modelled from the spec: the broker's `on_attempts_exceeded` policy carried
in an activation's retry state. -/
inductive OnAttemptsExceeded where
  | discard
  | deadletter
deriving DecidableEq, Repr

/-- Modelled from the spec: retry state carried with an activation
({attempts, max_attempts, on_attempts_exceeded policy}). -/
structure RetryState where
  attempts : Nat
  max_attempts : Nat
  on_attempts_exceeded : OnAttemptsExceeded
deriving DecidableEq, Repr

/-- Modelled from the spec: a TaskActivation, one delivery attempt of a task.
`processing_deadline_duration` is in seconds. -/
structure TaskActivation where
  id : String
  namespace_ : String
  taskname : String
  parameters : String
  processing_deadline_duration : Nat
  retry_state : Option RetryState := none
deriving DecidableEq, Repr

/-- Modelled from the spec: ProcessingResult status, one of
COMPLETE, RETRY, FAILURE. -/
inductive TaskStatus where
  | complete
  | retry
  | failure
deriving DecidableEq, Repr

/-- Modelled from the spec: a ProcessingResult — `task_id`, `status`, and the
forwarded retry state. Produced exactly once per executed activation. -/
structure ProcessingResult where
  task_id : String
  status : TaskStatus
  retry_state : Option RetryState := none
deriving DecidableEq, Repr

/-- Modelled from the spec: the condition captured to the external
error-tracking collaborator when an execution fails. Deadline expiry raises
`ProcessingDeadlineExceeded`; an uncaught handler exception is captured
as-is. -/
inductive Condition where
  | processingDeadlineExceeded
  | handlerException
deriving DecidableEq, Repr

/-- Modelled from the spec: how the handler of a registered task behaves when
invoked (its outcome, abstracting over business logic). -/
inductive HandlerBehavior where
  /-- the handler returns normally -/
  | returnsNormally
  /-- the handler raises a no-retries-remaining condition and catches it
  itself, treating exhausted retries as a terminal outcome -/
  | catchesNoRetriesRemaining
  /-- the handler raises an exception it does not catch -/
  | raisesUncaught
  /-- the handler explicitly signals a retry -/
  | signalsRetry
deriving DecidableEq, Repr

/-- Modelled from the spec: a registry entry — the handler for a
(namespace, taskname) pair plus its idempotency metadata and the wall-clock
duration the handler runs for when invoked (in seconds). -/
structure RegisteredTask where
  namespace_ : String
  taskname : String
  at_most_once : Bool := false
  runtime : Nat := 0
  behavior : HandlerBehavior := .returnsNormally
deriving DecidableEq, Repr

/-- Modelled from the spec: the Task Registry capability,
`lookup(namespace, taskname) -> Handler | None`. -/
def Registry : Type := List RegisteredTask

/-- Registry lookup by (namespace, taskname). -/
def lookup (reg : Registry) (ns taskname : String) : Option RegisteredTask :=
  reg.find? (fun t => t.namespace_ == ns && t.taskname == taskname)

/-- Modelled from the spec: outcome of invoking a handler under the armed
deadline timer. -/
structure ExecutionOutcome where
  status : TaskStatus
  condition : Option Condition
deriving DecidableEq, Repr

/-- Modelled from the spec: execute a matched handler under a hard timer set
to the activation's `processing_deadline_duration`. If the handler has not
returned when the timer fires, execution is forcibly aborted and the outcome
is FAILURE with a `ProcessingDeadlineExceeded` condition; otherwise the
handler outcome is mapped to a status (normal return or handler-caught
no-retries-remaining → COMPLETE, uncaught exception → FAILURE, signalled
retry → RETRY). -/
def run_handler (t : RegisteredTask) (act : TaskActivation) : ExecutionOutcome :=
  if act.processing_deadline_duration < t.runtime then
    { status := .failure, condition := some .processingDeadlineExceeded }
  else
    match t.behavior with
    | .returnsNormally => { status := .complete, condition := none }
    | .catchesNoRetriesRemaining => { status := .complete, condition := none }
    | .raisesUncaught => { status := .failure, condition := some .handlerException }
    | .signalsRetry => { status := .retry, condition := none }

/-! ## Child executor -/

/-- Modelled from the spec: an observable event of the child executor, used to
state the current-task discipline and handler-invocation properties. -/
inductive ChildEvent where
  /-- the process-wide Current-Task State is set to the given activation id -/
  | setCurrent (id : String)
  /-- the matched handler is invoked for the given activation id -/
  | invokeHandler (id : String)
  /-- the Current-Task State is cleared -/
  | clearCurrent
  /-- a condition is captured to the external error tracker -/
  | capture (c : Condition)
  /-- a ProcessingResult is enqueued on the outbound queue -/
  | recordResult (id : String) (status : TaskStatus)
deriving DecidableEq, Repr

/-- Modelled from the spec: the state a child executor threads through its
loop: the outbound results queue, its processed-task counter, the set of
at-most-once keys already claimed (the redis SETNX keys), the process-wide
Current-Task State, and the event trace. -/
structure ChildState where
  processed_task_count : Nat := 0
  outbound : List ProcessingResult := []
  seen_at_most_once : List String := []
  current : Option TaskActivation := none
  trace : List ChildEvent := []
deriving DecidableEq, Repr

/-- The initial state of a freshly spawned child executor. -/
def initChild : ChildState := {}

/-- The at-most-once idempotency key claimed for an activation. -/
def amoKey (act : TaskActivation) : String :=
  act.namespace_ ++ ":" ++ act.taskname ++ ":" ++ act.id

/-- Modelled from the spec: the child executor's handling of one activation
taken from the inbound queue. Lookup failure records FAILURE immediately with
no handler invoked. A duplicate delivery of an at-most-once task is dropped
without execution or result (pinned by test_child_process_at_most_once).
Otherwise the executor sets Current-Task State, invokes the handler under the
deadline, captures any failure condition, enqueues the result (with the
activation's retry state forwarded), clears Current-Task State and increments
the processed-task counter. -/
def process_activation (reg : Registry) (act : TaskActivation) (s : ChildState) :
    ChildState :=
  match lookup reg act.namespace_ act.taskname with
  | none =>
      { s with
        outbound := s.outbound ++ [⟨act.id, .failure, act.retry_state⟩]
        trace := s.trace ++ [.recordResult act.id .failure] }
  | some t =>
      if t.at_most_once && s.seen_at_most_once.contains (amoKey act) then
        s
      else
        let s0 :=
          if t.at_most_once then
            { s with seen_at_most_once := amoKey act :: s.seen_at_most_once }
          else s
        let out := run_handler t act
        { s0 with
          outbound := s0.outbound ++ [⟨act.id, out.status, act.retry_state⟩]
          processed_task_count := s0.processed_task_count + 1
          current := none
          trace := s0.trace
            ++ [.setCurrent act.id, .invokeHandler act.id]
            ++ out.condition.toList.map ChildEvent.capture
            ++ [.recordResult act.id out.status, .clearCurrent] }

/-- Modelled from the spec: the child executor loop (`child_process`). The
queue `q` is the inbound queue in FIFO order. Each iteration first checks the
shutdown signal (stop pulling new work when set), then takes one activation,
processes it, and exits cleanly once its processed-task counter has reached
`max_task_count`. Returns the remaining inbound queue and the final state. -/
def child_loop (reg : Registry) (shutdown : Bool) (max_task_count : Nat)
    (q : List TaskActivation) (s : ChildState) :
    List TaskActivation × ChildState :=
  if shutdown then (q, s)
  else
    match q with
    | [] => ([], s)
    | act :: rest =>
      let s1 := process_activation reg act s
      if max_task_count ≤ s1.processed_task_count then (rest, s1)
      else child_loop reg shutdown max_task_count rest s1

/-- Modelled from the spec: `child_process` run from a fresh child state on a
given inbound queue. -/
def child_process (reg : Registry) (shutdown : Bool) (max_task_count : Nat)
    (q : List TaskActivation) : List TaskActivation × ChildState :=
  child_loop reg shutdown max_task_count q initChild

/-- The activation ids for which a handler was invoked, in invocation order,
as recorded in a trace. -/
def invocations (tr : List ChildEvent) : List String :=
  tr.filterMap (fun e =>
    match e with
    | .invokeHandler i => some i
    | _ => none)

/-- The Current-Task State after replaying a trace from a given starting
state. -/
def currentAfter (tr : List ChildEvent) (cur : Option String) : Option String :=
  match tr with
  | [] => cur
  | .setCurrent i :: rest => currentAfter rest (some i)
  | .clearCurrent :: rest => currentAfter rest none
  | _ :: rest => currentAfter rest cur

/-- Checks that, throughout a trace replayed from Current-Task State `cur`,
every handler invocation for id `i` happens while the Current-Task State is
exactly `some i`. -/
def invokedUnderCurrent (tr : List ChildEvent) (cur : Option String) : Bool :=
  match tr with
  | [] => true
  | .setCurrent i :: rest => invokedUnderCurrent rest (some i)
  | .clearCurrent :: rest => invokedUnderCurrent rest none
  | .invokeHandler i :: rest => cur == some i && invokedUnderCurrent rest cur
  | _ :: rest => invokedUnderCurrent rest cur

/-- Checks that, throughout a trace replayed from Current-Task State `cur`,
the Current-Task State is only ever set from a cleared state — i.e. every
earlier execution cleared it before the next one began. -/
def setFromCleared (tr : List ChildEvent) (cur : Option String) : Bool :=
  match tr with
  | [] => true
  | .setCurrent i :: rest => cur == none && setFromCleared rest (some i)
  | .clearCurrent :: rest => setFromCleared rest none
  | _ :: rest => setFromCleared rest cur

/-! ## Result reporter -/

/-- Modelled from the spec: one response of the broker's `update_task` RPC as
observed by the reporter: a transient failure (e.g. gRPC status UNAVAILABLE),
success (optionally carrying the next task to run), or a terminal failure. -/
inductive UpdateResponse where
  | transientError
  | ok (next : Option TaskActivation)
  | terminalError
deriving DecidableEq, Repr

/-- Modelled from the spec: what became of one ProcessingResult in the
reporter. -/
inductive ReportOutcome where
  /-- `update_task` returned successfully; the result was delivered and the
  broker optionally handed back the next task -/
  | delivered (next : Option TaskActivation)
  /-- a non-transient RPC failure: logged and the result dropped -/
  | dropped
  /-- still retrying a transient failure (the model's fuel ran out; the real
  reporter retries indefinitely) -/
  | stalled
deriving DecidableEq, Repr

/-- Modelled from the spec: the reporter's handling of one ProcessingResult.
`client i` is the broker's response to the i-th `update_task` call made for
this result. On a transient error the result is held and `update_task` is
retried; on success or terminal error the reporter moves on. Returns the
outcome and the number of `update_task` calls made, given retry fuel. -/
def report_result (client : Nat → UpdateResponse) (fuel : Nat) (callIdx : Nat) :
    ReportOutcome × Nat :=
  match fuel with
  | 0 => (.stalled, 0)
  | fuel' + 1 =>
    match client callIdx with
    | .transientError =>
        let r := report_result client fuel' (callIdx + 1)
        (r.1, r.2 + 1)
    | .ok next => (.delivered next, 1)
    | .terminalError => (.dropped, 1)

/-- Modelled from the spec: the parent-side bookkeeping the reporter touches
when it processes an `update_task` response: the shared inbound queue and the
running count of explicit `get_task` calls. -/
structure ReporterState where
  inbound : List TaskActivation
  get_task_calls : Nat
deriving DecidableEq, Repr

/-- Modelled from the spec: how the reporter consumes the next-task payload of
a successful `update_task` response. A non-null payload is submitted directly
to the inbound queue; no `get_task` call is issued for it. -/
def handle_update_response (next : Option TaskActivation) (st : ReporterState) :
    ReporterState :=
  match next with
  | some act => { st with inbound := st.inbound ++ [act] }
  | none => st

/-! ## Concrete fixtures

The registry entries and activations below mirror the fixtures of
src/tests/sentry/taskworker/test_worker.py (the `examples` task namespace and
the module-level TaskActivation constants).
-/

/-- The `examples` task namespace as exercised by the worker tests:
simple_task completes normally, retry_task signals a retry, fail_task raises
an uncaught exception, at_most_once is registered at-most-once, retry_state
catches its own NoRetriesRemaining error, and timed sleeps for its argument
(3 seconds in the deadline test). -/
def exampleRegistry : Registry :=
  [ { namespace_ := "examples", taskname := "examples.simple_task" },
    { namespace_ := "examples", taskname := "examples.retry_task",
      behavior := .signalsRetry },
    { namespace_ := "examples", taskname := "examples.fail_task",
      behavior := .raisesUncaught },
    { namespace_ := "examples", taskname := "examples.at_most_once",
      at_most_once := true },
    { namespace_ := "examples", taskname := "examples.retry_state",
      behavior := .catchesNoRetriesRemaining },
    { namespace_ := "examples", taskname := "examples.timed", runtime := 3 } ]

/-- SIMPLE_TASK from the worker tests. -/
def simpleTask : TaskActivation :=
  { id := "111", namespace_ := "examples", taskname := "examples.simple_task",
    parameters := "\x7b\"args\": [], \"kwargs\": \x7b\x7d\x7d",
    processing_deadline_duration := 2 }

/-- A second normally-completing activation of the simple task, used as
"task B" in the two-task child-recycling scenario. -/
def simpleTaskB : TaskActivation :=
  { simpleTask with id := "112" }

/-- RETRY_TASK from the worker tests. -/
def retryTask : TaskActivation :=
  { id := "222", namespace_ := "examples", taskname := "examples.retry_task",
    parameters := "\x7b\"args\": [], \"kwargs\": \x7b\x7d\x7d",
    processing_deadline_duration := 2 }

/-- FAIL_TASK from the worker tests. -/
def failTask : TaskActivation :=
  { id := "333", namespace_ := "examples", taskname := "examples.fail_task",
    parameters := "\x7b\"args\": [], \"kwargs\": \x7b\x7d\x7d",
    processing_deadline_duration := 2 }

/-- UNDEFINED_TASK from the worker tests: its (namespace, taskname) is not in
the registry. -/
def undefinedTask : TaskActivation :=
  { id := "444", namespace_ := "lolnope", taskname := "total.rubbish",
    parameters := "\x7b\"args\": [], \"kwargs\": \x7b\x7d\x7d",
    processing_deadline_duration := 2 }

/-- AT_MOST_ONCE_TASK from the worker tests. -/
def atMostOnceTask : TaskActivation :=
  { id := "555", namespace_ := "examples", taskname := "examples.at_most_once",
    parameters := "\x7b\"args\": [], \"kwargs\": \x7b\x7d\x7d",
    processing_deadline_duration := 2 }

/-- RETRY_STATE_TASK from the worker tests: one attempt left of two, DISCARD
on attempts exceeded. -/
def retryStateTask : TaskActivation :=
  { id := "654", namespace_ := "examples", taskname := "examples.retry_state",
    parameters := "\x7b\"args\": [], \"kwargs\": \x7b\x7d\x7d",
    processing_deadline_duration := 2,
    retry_state := some { attempts := 1, max_attempts := 2,
                          on_attempts_exceeded := .discard } }

/-- The sleepy activation of test_child_process_terminate_task: the timed
handler sleeps 3 seconds against a 1 second processing deadline. -/
def sleepyTask : TaskActivation :=
  { id := "111", namespace_ := "examples", taskname := "examples.timed",
    parameters := "\x7b\"args\": [3], \"kwargs\": \x7b\x7d\x7d",
    processing_deadline_duration := 1 }

/-- The conditions captured to the external error tracker, in order, as
recorded in a trace. -/
def captures (tr : List ChildEvent) : List Condition :=
  tr.filterMap (fun e =>
    match e with
    | .capture c => some c
    | _ => none)

/-! ## Trace helper lemmas -/

@[simp] lemma invocations_nil : invocations [] = [] := rfl

@[simp] lemma invocations_cons_set (i : String) (tr : List ChildEvent) :
    invocations (.setCurrent i :: tr) = invocations tr := rfl

@[simp] lemma invocations_cons_invoke (i : String) (tr : List ChildEvent) :
    invocations (.invokeHandler i :: tr) = i :: invocations tr := rfl

@[simp] lemma invocations_cons_clear (tr : List ChildEvent) :
    invocations (.clearCurrent :: tr) = invocations tr := rfl

@[simp] lemma invocations_cons_capture (c : Condition) (tr : List ChildEvent) :
    invocations (.capture c :: tr) = invocations tr := rfl

@[simp] lemma invocations_cons_record (i : String) (st : TaskStatus)
    (tr : List ChildEvent) :
    invocations (.recordResult i st :: tr) = invocations tr := rfl

@[simp] lemma invocations_append (t1 t2 : List ChildEvent) :
    invocations (t1 ++ t2) = invocations t1 ++ invocations t2 := by
  simp [invocations, List.filterMap_append]

@[simp] lemma invocations_map_capture (l : List Condition) :
    invocations (l.map ChildEvent.capture) = [] := by
  induction l with
  | nil => rfl
  | cons c cs ih => simp [ih]

@[simp] lemma captures_nil : captures [] = [] := rfl

@[simp] lemma captures_cons_set (i : String) (tr : List ChildEvent) :
    captures (.setCurrent i :: tr) = captures tr := rfl

@[simp] lemma captures_cons_invoke (i : String) (tr : List ChildEvent) :
    captures (.invokeHandler i :: tr) = captures tr := rfl

@[simp] lemma captures_cons_clear (tr : List ChildEvent) :
    captures (.clearCurrent :: tr) = captures tr := rfl

@[simp] lemma captures_cons_capture (c : Condition) (tr : List ChildEvent) :
    captures (.capture c :: tr) = c :: captures tr := rfl

@[simp] lemma captures_cons_record (i : String) (st : TaskStatus)
    (tr : List ChildEvent) :
    captures (.recordResult i st :: tr) = captures tr := rfl

@[simp] lemma captures_append (t1 t2 : List ChildEvent) :
    captures (t1 ++ t2) = captures t1 ++ captures t2 := by
  simp [captures, List.filterMap_append]

@[simp] lemma captures_map_capture (l : List Condition) :
    captures (l.map ChildEvent.capture) = l := by
  induction l with
  | nil => rfl
  | cons c cs ih => simp [ih]

@[simp] lemma currentAfter_nil (cur : Option String) :
    currentAfter [] cur = cur := rfl

@[simp] lemma currentAfter_cons_set (i : String) (tr : List ChildEvent)
    (cur : Option String) :
    currentAfter (.setCurrent i :: tr) cur = currentAfter tr (some i) := rfl

@[simp] lemma currentAfter_cons_invoke (i : String) (tr : List ChildEvent)
    (cur : Option String) :
    currentAfter (.invokeHandler i :: tr) cur = currentAfter tr cur := rfl

@[simp] lemma currentAfter_cons_clear (tr : List ChildEvent)
    (cur : Option String) :
    currentAfter (.clearCurrent :: tr) cur = currentAfter tr none := rfl

@[simp] lemma currentAfter_cons_capture (c : Condition) (tr : List ChildEvent)
    (cur : Option String) :
    currentAfter (.capture c :: tr) cur = currentAfter tr cur := rfl

@[simp] lemma currentAfter_cons_record (i : String) (st : TaskStatus)
    (tr : List ChildEvent) (cur : Option String) :
    currentAfter (.recordResult i st :: tr) cur = currentAfter tr cur := rfl

lemma currentAfter_append (t1 t2 : List ChildEvent) (cur : Option String) :
    currentAfter (t1 ++ t2) cur = currentAfter t2 (currentAfter t1 cur) := by
  induction t1 generalizing cur with
  | nil => rfl
  | cons e rest ih => cases e <;> simp [ih]

@[simp] lemma currentAfter_map_capture (l : List Condition)
    (cur : Option String) :
    currentAfter (l.map ChildEvent.capture) cur = cur := by
  induction l with
  | nil => rfl
  | cons c cs ih => simp [ih]

@[simp] lemma invokedUnderCurrent_nil (cur : Option String) :
    invokedUnderCurrent [] cur = true := rfl

@[simp] lemma invokedUnderCurrent_cons_set (i : String) (tr : List ChildEvent)
    (cur : Option String) :
    invokedUnderCurrent (.setCurrent i :: tr) cur =
      invokedUnderCurrent tr (some i) := rfl

@[simp] lemma invokedUnderCurrent_cons_invoke (i : String)
    (tr : List ChildEvent) (cur : Option String) :
    invokedUnderCurrent (.invokeHandler i :: tr) cur =
      (cur == some i && invokedUnderCurrent tr cur) := rfl

@[simp] lemma invokedUnderCurrent_cons_clear (tr : List ChildEvent)
    (cur : Option String) :
    invokedUnderCurrent (.clearCurrent :: tr) cur =
      invokedUnderCurrent tr none := rfl

@[simp] lemma invokedUnderCurrent_cons_capture (c : Condition)
    (tr : List ChildEvent) (cur : Option String) :
    invokedUnderCurrent (.capture c :: tr) cur =
      invokedUnderCurrent tr cur := rfl

@[simp] lemma invokedUnderCurrent_cons_record (i : String) (st : TaskStatus)
    (tr : List ChildEvent) (cur : Option String) :
    invokedUnderCurrent (.recordResult i st :: tr) cur =
      invokedUnderCurrent tr cur := rfl

lemma invokedUnderCurrent_append (t1 t2 : List ChildEvent)
    (cur : Option String) :
    invokedUnderCurrent (t1 ++ t2) cur =
      (invokedUnderCurrent t1 cur &&
       invokedUnderCurrent t2 (currentAfter t1 cur)) := by
  induction t1 generalizing cur with
  | nil => rfl
  | cons e rest ih => cases e <;> simp [ih, Bool.and_assoc]

@[simp] lemma invokedUnderCurrent_map_capture (l : List Condition)
    (cur : Option String) :
    invokedUnderCurrent (l.map ChildEvent.capture) cur = true := by
  induction l with
  | nil => rfl
  | cons c cs ih => simp [ih]

@[simp] lemma setFromCleared_nil (cur : Option String) :
    setFromCleared [] cur = true := rfl

@[simp] lemma setFromCleared_cons_set (i : String) (tr : List ChildEvent)
    (cur : Option String) :
    setFromCleared (.setCurrent i :: tr) cur =
      (cur == none && setFromCleared tr (some i)) := rfl

@[simp] lemma setFromCleared_cons_invoke (i : String) (tr : List ChildEvent)
    (cur : Option String) :
    setFromCleared (.invokeHandler i :: tr) cur = setFromCleared tr cur := rfl

@[simp] lemma setFromCleared_cons_clear (tr : List ChildEvent)
    (cur : Option String) :
    setFromCleared (.clearCurrent :: tr) cur = setFromCleared tr none := rfl

@[simp] lemma setFromCleared_cons_capture (c : Condition) (tr : List ChildEvent)
    (cur : Option String) :
    setFromCleared (.capture c :: tr) cur = setFromCleared tr cur := rfl

@[simp] lemma setFromCleared_cons_record (i : String) (st : TaskStatus)
    (tr : List ChildEvent) (cur : Option String) :
    setFromCleared (.recordResult i st :: tr) cur = setFromCleared tr cur := rfl

lemma setFromCleared_append (t1 t2 : List ChildEvent) (cur : Option String) :
    setFromCleared (t1 ++ t2) cur =
      (setFromCleared t1 cur && setFromCleared t2 (currentAfter t1 cur)) := by
  induction t1 generalizing cur with
  | nil => rfl
  | cons e rest ih => cases e <;> simp [ih, Bool.and_assoc]

@[simp] lemma setFromCleared_map_capture (l : List Condition)
    (cur : Option String) :
    setFromCleared (l.map ChildEvent.capture) cur = true := by
  induction l with
  | nil => rfl
  | cons c cs ih => simp [ih]

/-! ## Executor step lemmas -/

/-- An activation whose (namespace, taskname) is not registered yields an
immediate FAILURE result and leaves everything else (counter, current task,
at-most-once keys) untouched; no handler-invocation event is emitted. -/
lemma process_activation_unknown (reg : Registry) (act : TaskActivation)
    (s : ChildState) (h : lookup reg act.namespace_ act.taskname = none) :
    process_activation reg act s =
      { s with
        outbound := s.outbound ++ [⟨act.id, .failure, act.retry_state⟩]
        trace := s.trace ++ [.recordResult act.id .failure] } := by
  simp [process_activation, h]

/-- A duplicate delivery of an at-most-once task is dropped: the state is
unchanged. -/
lemma process_activation_dup (reg : Registry) (act : TaskActivation)
    (s : ChildState) (t : RegisteredTask)
    (h : lookup reg act.namespace_ act.taskname = some t)
    (ha : t.at_most_once = true)
    (hs : amoKey act ∈ s.seen_at_most_once) :
    process_activation reg act s = s := by
  simp [process_activation, h, ha, hs]

/-- Executing a registered, non-at-most-once task: the handler runs under the
deadline, the result is enqueued, the counter is incremented, and the trace
gains the set/invoke/capture/record/clear block. -/
lemma process_activation_exec (reg : Registry) (act : TaskActivation)
    (s : ChildState) (t : RegisteredTask)
    (h : lookup reg act.namespace_ act.taskname = some t)
    (ha : t.at_most_once = false) :
    process_activation reg act s =
      { s with
        outbound := s.outbound ++
          [⟨act.id, (run_handler t act).status, act.retry_state⟩]
        processed_task_count := s.processed_task_count + 1
        current := none
        trace := s.trace ++
          ([.setCurrent act.id, .invokeHandler act.id]
            ++ (run_handler t act).condition.toList.map ChildEvent.capture
            ++ [.recordResult act.id (run_handler t act).status,
                .clearCurrent]) } := by
  simp [process_activation, h, ha]

/-- Executing a registered at-most-once task on its first delivery: as
`process_activation_exec`, and additionally the at-most-once key is
claimed. -/
lemma process_activation_exec_amo (reg : Registry) (act : TaskActivation)
    (s : ChildState) (t : RegisteredTask)
    (h : lookup reg act.namespace_ act.taskname = some t)
    (ha : t.at_most_once = true)
    (hs : amoKey act ∉ s.seen_at_most_once) :
    process_activation reg act s =
      { s with
        seen_at_most_once := amoKey act :: s.seen_at_most_once
        outbound := s.outbound ++
          [⟨act.id, (run_handler t act).status, act.retry_state⟩]
        processed_task_count := s.processed_task_count + 1
        current := none
        trace := s.trace ++
          ([.setCurrent act.id, .invokeHandler act.id]
            ++ (run_handler t act).condition.toList.map ChildEvent.capture
            ++ [.recordResult act.id (run_handler t act).status,
                .clearCurrent]) } := by
  simp [process_activation, h, ha, hs]

/-- One executor step increases the processed-task counter by the number of
handler invocations it adds to the trace. -/
lemma process_activation_count_invocations (reg : Registry)
    (act : TaskActivation) (s : ChildState) :
    (process_activation reg act s).processed_task_count +
        (invocations s.trace).length
      = s.processed_task_count +
        (invocations (process_activation reg act s).trace).length := by
  cases h : lookup reg act.namespace_ act.taskname with
  | none => rw [process_activation_unknown reg act s h]; simp
  | some t =>
    by_cases ha : t.at_most_once = true
    · by_cases hs : amoKey act ∈ s.seen_at_most_once
      · rw [process_activation_dup reg act s t h ha hs]
      · rw [process_activation_exec_amo reg act s t h ha hs]; simp; omega
    · rw [process_activation_exec reg act s t h (by simpa using ha)]; simp; omega

/-- One executor step increments the processed-task counter by at most one. -/
lemma process_activation_count_le (reg : Registry) (act : TaskActivation)
    (s : ChildState) :
    (process_activation reg act s).processed_task_count ≤
      s.processed_task_count + 1 := by
  cases h : lookup reg act.namespace_ act.taskname with
  | none => rw [process_activation_unknown reg act s h]; simp
  | some t =>
    by_cases ha : t.at_most_once = true
    · by_cases hs : amoKey act ∈ s.seen_at_most_once
      · rw [process_activation_dup reg act s t h ha hs]; omega
      · rw [process_activation_exec_amo reg act s t h ha hs]
    · rw [process_activation_exec reg act s t h (by simpa using ha)]

/-- One executor step leaves the Current-Task State cleared. -/
lemma process_activation_current (reg : Registry) (act : TaskActivation)
    (s : ChildState) (hc : s.current = none) :
    (process_activation reg act s).current = none := by
  cases h : lookup reg act.namespace_ act.taskname with
  | none => rw [process_activation_unknown reg act s h]; exact hc
  | some t =>
    by_cases ha : t.at_most_once = true
    · by_cases hs : amoKey act ∈ s.seen_at_most_once
      · rw [process_activation_dup reg act s t h ha hs]; exact hc
      · rw [process_activation_exec_amo reg act s t h ha hs]
    · rw [process_activation_exec reg act s t h (by simpa using ha)]

/-- One executor step preserves the current-task trace discipline: the trace
replays to a cleared Current-Task State, and every handler invocation in it
happens under a Current-Task State equal to the invoked activation's id. -/
lemma process_activation_trace_good (reg : Registry) (act : TaskActivation)
    (s : ChildState) (h1 : currentAfter s.trace none = none)
    (h2 : invokedUnderCurrent s.trace none = true)
    (h3 : setFromCleared s.trace none = true) :
    currentAfter (process_activation reg act s).trace none = none ∧
      invokedUnderCurrent (process_activation reg act s).trace none = true ∧
      setFromCleared (process_activation reg act s).trace none = true := by
  cases h : lookup reg act.namespace_ act.taskname with
  | none =>
    rw [process_activation_unknown reg act s h]
    simp [currentAfter_append, invokedUnderCurrent_append, setFromCleared_append,
      h1, h2, h3]
  | some t =>
    by_cases ha : t.at_most_once = true
    · by_cases hs : amoKey act ∈ s.seen_at_most_once
      · rw [process_activation_dup reg act s t h ha hs]; exact ⟨h1, h2, h3⟩
      · rw [process_activation_exec_amo reg act s t h ha hs]
        simp [currentAfter_append, invokedUnderCurrent_append,
          setFromCleared_append, h1, h2, h3]
    · rw [process_activation_exec reg act s t h (by simpa using ha)]
      simp [currentAfter_append, invokedUnderCurrent_append,
        setFromCleared_append, h1, h2, h3]

/-! ## Loop invariant lemmas -/

/-- Over a whole child loop run, the processed-task counter grows by exactly
the number of handler invocations added to the trace. -/
lemma child_loop_count_invocations (reg : Registry) (sd : Bool) (maxT : Nat) :
    ∀ (q : List TaskActivation) (s : ChildState),
      (child_loop reg sd maxT q s).2.processed_task_count +
          (invocations s.trace).length
        = s.processed_task_count +
          (invocations (child_loop reg sd maxT q s).2.trace).length := by
  intro q
  induction q with
  | nil =>
    intro s
    cases sd <;> simp [child_loop]
  | cons act rest ih =>
    intro s
    cases sd with
    | true => simp [child_loop]
    | false =>
      rw [child_loop]
      simp only [Bool.false_eq_true, if_false]
      by_cases hm : maxT ≤ (process_activation reg act s).processed_task_count
      · simpa [hm] using process_activation_count_invocations reg act s
      · have hstep := process_activation_count_invocations reg act s
        have hrec := ih (process_activation reg act s)
        simp only [hm, if_false]
        omega

/-- A child loop entered strictly below the task limit that stops with work
still queued stops exactly at the limit. -/
lemma child_loop_stop_at_max (reg : Registry) (maxT : Nat) :
    ∀ (q : List TaskActivation) (s : ChildState),
      s.processed_task_count < maxT →
      (child_loop reg false maxT q s).1 ≠ [] →
      (child_loop reg false maxT q s).2.processed_task_count = maxT := by
  intro q
  induction q with
  | nil =>
    intro s _ hne
    simp [child_loop] at hne
  | cons act rest ih =>
    intro s hlt hne
    rw [child_loop] at hne ⊢
    simp only [Bool.false_eq_true, if_false] at hne ⊢
    by_cases hm : maxT ≤ (process_activation reg act s).processed_task_count
    · have hle := process_activation_count_le reg act s
      simp only [hm, if_true]
      omega
    · simp only [hm, if_false] at hne ⊢
      exact ih (process_activation reg act s) (by omega) hne

/-- The Current-Task State is cleared after any child loop run that starts
with it cleared. -/
lemma child_loop_current (reg : Registry) (sd : Bool) (maxT : Nat) :
    ∀ (q : List TaskActivation) (s : ChildState),
      s.current = none → (child_loop reg sd maxT q s).2.current = none := by
  intro q
  induction q with
  | nil =>
    intro s hc
    cases sd <;> simpa [child_loop]
  | cons act rest ih =>
    intro s hc
    cases sd with
    | true => simpa [child_loop]
    | false =>
      rw [child_loop]
      simp only [Bool.false_eq_true, if_false]
      by_cases hm : maxT ≤ (process_activation reg act s).processed_task_count
      · simpa [hm] using process_activation_current reg act s hc
      · simp only [hm, if_false]
        exact ih _ (process_activation_current reg act s hc)

/-- The current-task trace discipline is preserved by any child loop run. -/
lemma child_loop_trace_good (reg : Registry) (sd : Bool) (maxT : Nat) :
    ∀ (q : List TaskActivation) (s : ChildState),
      currentAfter s.trace none = none →
      invokedUnderCurrent s.trace none = true →
      setFromCleared s.trace none = true →
      currentAfter (child_loop reg sd maxT q s).2.trace none = none ∧
        invokedUnderCurrent (child_loop reg sd maxT q s).2.trace none = true ∧
        setFromCleared (child_loop reg sd maxT q s).2.trace none = true := by
  intro q
  induction q with
  | nil =>
    intro s h1 h2 h3
    cases sd <;> simpa [child_loop] using ⟨h1, h2, h3⟩
  | cons act rest ih =>
    intro s h1 h2 h3
    cases sd with
    | true => simpa [child_loop] using ⟨h1, h2, h3⟩
    | false =>
      rw [child_loop]
      simp only [Bool.false_eq_true, if_false]
      obtain ⟨g1, g2, g3⟩ := process_activation_trace_good reg act s h1 h2 h3
      by_cases hm : maxT ≤ (process_activation reg act s).processed_task_count
      · simpa [hm] using ⟨g1, g2, g3⟩
      · simp only [hm, if_false]
        exact ih _ g1 g2 g3

/-- Running a fresh child on a single registered, non-at-most-once activation
executes it once and stops: the outbound queue holds exactly its result and
the trace is the single execution block. -/
lemma child_process_single_exec (reg : Registry) (act : TaskActivation)
    (t : RegisteredTask) (maxT : Nat)
    (h : lookup reg act.namespace_ act.taskname = some t)
    (ha : t.at_most_once = false) :
    child_process reg false maxT [act] =
      ([], { processed_task_count := 1
             outbound := [⟨act.id, (run_handler t act).status, act.retry_state⟩]
             seen_at_most_once := []
             current := none
             trace := [.setCurrent act.id, .invokeHandler act.id]
               ++ (run_handler t act).condition.toList.map ChildEvent.capture
               ++ [.recordResult act.id (run_handler t act).status,
                   .clearCurrent] }) := by
  unfold child_process
  rw [child_loop]
  simp only [Bool.false_eq_true, if_false]
  rw [process_activation_exec reg act initChild t h ha]
  by_cases h1 : maxT ≤ 1
  · simp [initChild, h1]
  · simp [initChild, h1, child_loop]

/-! ## Claim theorems -/

/-- C1: when a child process executes a handler that does not return within
the activation's processing_deadline_duration, the ProcessingResult recorded
for that activation has status FAILURE and the captured condition is a
ProcessingDeadlineExceeded exception. -/
theorem claim_C1_deadline_failure (reg : Registry) (act : TaskActivation)
    (t : RegisteredTask) (maxT : Nat)
    (h : lookup reg act.namespace_ act.taskname = some t)
    (ha : t.at_most_once = false)
    (hd : act.processing_deadline_duration < t.runtime) :
    (child_process reg false maxT [act]).2.outbound =
      [⟨act.id, .failure, act.retry_state⟩] ∧
    captures (child_process reg false maxT [act]).2.trace =
      [.processingDeadlineExceeded] := by
  rw [child_process_single_exec reg act t maxT h ha]
  have hrun : run_handler t act =
      ⟨.failure, some .processingDeadlineExceeded⟩ := by
    simp [run_handler, hd]
  simp [hrun]

/-- Witness for C1: the sleepy activation of
test_child_process_terminate_task (timed handler sleeps 3s, deadline 1s). -/
theorem claim_C1_witness :
    lookup exampleRegistry sleepyTask.namespace_ sleepyTask.taskname =
      some { namespace_ := "examples", taskname := "examples.timed",
             runtime := 3 } ∧
    ({ namespace_ := "examples", taskname := "examples.timed",
       runtime := 3 : RegisteredTask }).at_most_once = false ∧
    sleepyTask.processing_deadline_duration <
      ({ namespace_ := "examples", taskname := "examples.timed",
         runtime := 3 : RegisteredTask }).runtime ∧
    ((child_process exampleRegistry false 1 [sleepyTask]).2.outbound =
        [⟨sleepyTask.id, .failure, sleepyTask.retry_state⟩] ∧
      captures (child_process exampleRegistry false 1 [sleepyTask]).2.trace =
        [.processingDeadlineExceeded]) :=
  ⟨by decide, rfl, by decide,
   claim_C1_deadline_failure exampleRegistry sleepyTask
     { namespace_ := "examples", taskname := "examples.timed", runtime := 3 }
     1 (by decide) rfl (by decide)⟩

/-- C2: in VictorOpsPlugin.notify_users, the level-to-message_type selection
does not short-circuit on an info/debug match: any level other than
"warning" — including "info" and "debug" — yields message_type "CRITICAL",
and only exactly "warning" yields "WARNING". -/
theorem claim_C2_victorops_level_selection :
    notify_users_message_type (some "warning") = "WARNING" ∧
    ∀ level : Option String, level ≠ some "warning" →
      notify_users_message_type level = "CRITICAL" := by
  refine ⟨rfl, fun level h => ?_⟩
  simp [notify_users_message_type, h]

/-- Witness for C2: an "info"-level event gets message_type "CRITICAL", not
"INFO". -/
theorem claim_C2_witness :
    notify_users_message_type (some "warning") = "WARNING" ∧
    (some "info" : Option String) ≠ some "warning" ∧
    notify_users_message_type (some "info") = "CRITICAL" :=
  ⟨claim_C2_victorops_level_selection.1, by decide,
   claim_C2_victorops_level_selection.2 (some "info") (by decide)⟩

/-- C3: for every activation executed by a child process, the
ProcessingResult status is determined by the handler outcome: normal return →
COMPLETE, handler-caught no-retries-remaining → COMPLETE, uncaught exception
→ FAILURE, handler-signalled retry → RETRY (with the activation's retry state
carried forward on the result). -/
theorem claim_C3_status_mapping (reg : Registry) (act : TaskActivation)
    (t : RegisteredTask) (maxT : Nat)
    (h : lookup reg act.namespace_ act.taskname = some t)
    (ha : t.at_most_once = false)
    (hr : t.runtime ≤ act.processing_deadline_duration) :
    (t.behavior = .returnsNormally →
      (child_process reg false maxT [act]).2.outbound =
        [⟨act.id, .complete, act.retry_state⟩]) ∧
    (t.behavior = .catchesNoRetriesRemaining →
      (child_process reg false maxT [act]).2.outbound =
        [⟨act.id, .complete, act.retry_state⟩]) ∧
    (t.behavior = .raisesUncaught →
      (child_process reg false maxT [act]).2.outbound =
        [⟨act.id, .failure, act.retry_state⟩]) ∧
    (t.behavior = .signalsRetry →
      (child_process reg false maxT [act]).2.outbound =
        [⟨act.id, .retry, act.retry_state⟩]) := by
  rw [child_process_single_exec reg act t maxT h ha]
  have hnd : ¬ act.processing_deadline_duration < t.runtime := by omega
  refine ⟨?_, ?_, ?_, ?_⟩ <;> intro hb <;> simp [run_handler, hnd, hb]

/-- Witness for C3: the RETRY_STATE_TASK fixture, whose handler catches its
own NoRetriesRemaining error, yields a COMPLETE result (the scenario of
test_run_once_current_task_state). -/
theorem claim_C3_witness :
    lookup exampleRegistry retryStateTask.namespace_ retryStateTask.taskname =
      some { namespace_ := "examples", taskname := "examples.retry_state",
             behavior := .catchesNoRetriesRemaining } ∧
    ({ namespace_ := "examples", taskname := "examples.retry_state",
       behavior := .catchesNoRetriesRemaining : RegisteredTask }).at_most_once
      = false ∧
    ({ namespace_ := "examples", taskname := "examples.retry_state",
       behavior := .catchesNoRetriesRemaining : RegisteredTask }).runtime ≤
      retryStateTask.processing_deadline_duration ∧
    (({ namespace_ := "examples", taskname := "examples.retry_state",
        behavior := .catchesNoRetriesRemaining : RegisteredTask }).behavior =
        .catchesNoRetriesRemaining →
      (child_process exampleRegistry false 1 [retryStateTask]).2.outbound =
        [⟨retryStateTask.id, .complete, retryStateTask.retry_state⟩]) :=
  ⟨by decide, rfl, by decide,
   (claim_C3_status_mapping exampleRegistry retryStateTask
     { namespace_ := "examples", taskname := "examples.retry_state",
       behavior := .catchesNoRetriesRemaining }
     1 (by decide) rfl (by decide)).2.1⟩

/-- C4: when update_task raises a transient RPC error exactly twice and then
succeeds, the reporter calls update_task exactly three times for that
ProcessingResult and the result is delivered, never discarded before the
successful call. -/
theorem claim_C4_transient_retry (client : Nat → UpdateResponse) (fuel : Nat)
    (h0 : client 0 = .transientError) (h1 : client 1 = .transientError)
    (h2 : client 2 = .ok none) (hf : 3 ≤ fuel) :
    report_result client fuel 0 = (.delivered none, 3) := by
  obtain ⟨f, rfl⟩ : ∃ f, fuel = f + 3 := ⟨fuel - 3, by omega⟩
  rw [show f + 3 = (f + 2) + 1 by omega, report_result, h0]
  rw [show f + 2 = (f + 1) + 1 by omega, report_result, h1]
  rw [report_result, h2]

/-- The update_task mock of test_run_once_with_update_failure: UNAVAILABLE on
the first two calls, then success with no next task. -/
def clientTwiceUnavailable : Nat → UpdateResponse :=
  fun n => if n < 2 then .transientError else .ok none

/-- Witness for C4: with the twice-failing client and fuel 10, exactly three
update_task calls are made and the result is delivered. -/
theorem claim_C4_witness :
    clientTwiceUnavailable 0 = .transientError ∧
    clientTwiceUnavailable 1 = .transientError ∧
    clientTwiceUnavailable 2 = .ok none ∧
    3 ≤ 10 ∧
    report_result clientTwiceUnavailable 10 0 = (.delivered none, 3) :=
  ⟨rfl, rfl, rfl, by omega,
   claim_C4_transient_retry clientTwiceUnavailable 10 rfl rfl rfl (by omega)⟩

/-- C6: when an update_task call returns a non-null next-task payload, that
TaskActivation is submitted to the inbound queue with no additional get_task
call, and a child subsequently executes it, producing its result. -/
theorem claim_C6_next_task_fed_back (st : ReporterState)
    (next : TaskActivation) (reg : Registry) (t : RegisteredTask)
    (h : lookup reg next.namespace_ next.taskname = some t)
    (ha : t.at_most_once = false) :
    (handle_update_response (some next) st).inbound = st.inbound ++ [next] ∧
    (handle_update_response (some next) st).get_task_calls =
      st.get_task_calls ∧
    (child_process reg false 1 [next]).2.outbound =
      [⟨next.id, (run_handler t next).status, next.retry_state⟩] ∧
    invocations (child_process reg false 1 [next]).2.trace = [next.id] := by
  rw [child_process_single_exec reg next t 1 h ha]
  refine ⟨rfl, rfl, by simp, by simp⟩

/-- Witness for C6: the simple task returned as a next-task payload is
enqueued without a get_task call and executes to a COMPLETE result. -/
theorem claim_C6_witness :
    lookup exampleRegistry simpleTask.namespace_ simpleTask.taskname =
      some { namespace_ := "examples", taskname := "examples.simple_task" } ∧
    ({ namespace_ := "examples",
       taskname := "examples.simple_task" : RegisteredTask }).at_most_once
      = false ∧
    ((handle_update_response (some simpleTask) ⟨[], 1⟩).inbound =
        [] ++ [simpleTask] ∧
      (handle_update_response (some simpleTask) ⟨[], 1⟩).get_task_calls = 1 ∧
      (child_process exampleRegistry false 1 [simpleTask]).2.outbound =
        [⟨simpleTask.id,
          (run_handler
            { namespace_ := "examples", taskname := "examples.simple_task" }
            simpleTask).status,
          simpleTask.retry_state⟩] ∧
      invocations (child_process exampleRegistry false 1 [simpleTask]).2.trace
        = [simpleTask.id]) :=
  ⟨by decide, rfl,
   claim_C6_next_task_fed_back ⟨[], 1⟩ simpleTask exampleRegistry
     { namespace_ := "examples", taskname := "examples.simple_task" }
     (by decide) rfl⟩

/-- C10: once the global shutdown signal is set, a child process never pulls
new work: the inbound queue is left exactly as it was and no ProcessingResult
is produced. -/
theorem claim_C10_shutdown_no_new_work (reg : Registry) (maxT : Nat)
    (q : List TaskActivation) :
    (child_process reg true maxT q).1 = q ∧
    (child_process reg true maxT q).2.outbound = [] ∧
    invocations (child_process reg true maxT q).2.trace = [] := by
  unfold child_process
  rw [child_loop.eq_def]
  simp [initChild]

/-- C5: an activation whose (namespace, taskname) is not in the registry gets
a FAILURE result recorded for its id with no handler invocation (no
invokeHandler event is added), and the child loop carries on with the
remaining queued activations. -/
theorem claim_C5_unknown_task (reg : Registry) (act : TaskActivation)
    (rest : List TaskActivation) (maxT : Nat) (s : ChildState)
    (h : lookup reg act.namespace_ act.taskname = none)
    (hm : s.processed_task_count < maxT) :
    child_loop reg false maxT (act :: rest) s =
      child_loop reg false maxT rest
        { s with
          outbound := s.outbound ++ [⟨act.id, .failure, act.retry_state⟩]
          trace := s.trace ++ [.recordResult act.id .failure] } ∧
    invocations (s.trace ++ [.recordResult act.id .failure]) =
      invocations s.trace := by
  refine ⟨?_, by simp⟩
  rw [child_loop]
  simp only [Bool.false_eq_true, if_false]
  rw [process_activation_unknown reg act s h]
  have hn : ¬ maxT ≤ s.processed_task_count := by omega
  simp [hn]

/-- Witness for C5: the UNDEFINED_TASK fixture followed by SIMPLE_TASK (the
scenario of test_child_process_unknown_task). -/
theorem claim_C5_witness :
    lookup exampleRegistry undefinedTask.namespace_ undefinedTask.taskname =
      none ∧
    initChild.processed_task_count < 1 ∧
    (child_loop exampleRegistry false 1 [undefinedTask, simpleTask] initChild =
      child_loop exampleRegistry false 1 [simpleTask]
        { initChild with
          outbound := initChild.outbound ++
            [⟨undefinedTask.id, .failure, undefinedTask.retry_state⟩]
          trace := initChild.trace ++
            [.recordResult undefinedTask.id .failure] } ∧
     invocations (initChild.trace ++
        [.recordResult undefinedTask.id .failure]) =
       invocations initChild.trace) :=
  ⟨by decide, by decide,
   claim_C5_unknown_task exampleRegistry undefinedTask [simpleTask] 1
     initChild (by decide) (by decide)⟩

/-- C7: for every run of the child executor, the Current-Task State is set
immediately before each handler invocation (every invokeHandler happens under
a matching set Current-Task State, and every set starts from a cleared
state, so each earlier execution — whatever its outcome, including a
handler-caught no-retries-remaining error — cleared it), and at the end of
the run the Current-Task State is cleared. -/
theorem claim_C7_current_task_discipline (reg : Registry) (sd : Bool)
    (maxT : Nat) (q : List TaskActivation) :
    (child_process reg sd maxT q).2.current = none ∧
    currentAfter (child_process reg sd maxT q).2.trace none = none ∧
    invokedUnderCurrent (child_process reg sd maxT q).2.trace none = true ∧
    setFromCleared (child_process reg sd maxT q).2.trace none = true := by
  have hg := child_loop_trace_good reg sd maxT q initChild rfl rfl rfl
  exact ⟨child_loop_current reg sd maxT q initChild rfl, hg.1, hg.2.1, hg.2.2⟩

/-- C8 counterexample: the claim says the processed-task count increments
once per activation taken from the inbound queue, and the loop exits exactly
when the count reaches the max task count — so with max_task_count = 1 and
queue [UNDEFINED_TASK, SIMPLE_TASK] the child would have to stop after the
first taken activation with a count equal to the number taken. In fact both
activations are taken (the remaining queue is empty) while the count ends at
1, not 2: lookup failures are not counted, exactly as
test_child_process_unknown_task requires both results to be produced. -/
theorem claim_C8_counterexample :
    (child_process exampleRegistry false 1 [undefinedTask, simpleTask]).1 =
      [] ∧
    (child_process exampleRegistry false 1
        [undefinedTask, simpleTask]).2.outbound.length = 2 ∧
    ¬ ((child_process exampleRegistry false 1
          [undefinedTask, simpleTask]).2.processed_task_count = 2) := by
  refine ⟨by decide, by decide, by decide⟩

/-- C8 (amended): a child increments its processed-task count once per
activation whose handler it actually invokes (not once per activation taken:
lookup failures and deduplicated at-most-once deliveries are not counted),
and its loop exits with work still queued exactly when that count reaches the
configured max task count; in particular, with max_task_count = 2 and two
normally-completing tasks A then B, the child emits two COMPLETE results in
submission order and then exits, leaving later work queued. -/
theorem claim_C8_amended (reg : Registry) (maxT : Nat)
    (q : List TaskActivation) (hm : 0 < maxT) :
    ((child_process reg false maxT q).2.processed_task_count =
      (invocations (child_process reg false maxT q).2.trace).length) ∧
    ((child_process reg false maxT q).1 ≠ [] →
      (child_process reg false maxT q).2.processed_task_count = maxT) ∧
    (child_process exampleRegistry false 2
        [simpleTask, simpleTaskB, failTask]).1 = [failTask] ∧
    (child_process exampleRegistry false 2
        [simpleTask, simpleTaskB, failTask]).2.outbound =
      [⟨simpleTask.id, .complete, none⟩, ⟨simpleTaskB.id, .complete, none⟩] := by
  refine ⟨?_, ?_, by decide, by decide⟩
  · have := child_loop_count_invocations reg false maxT q initChild
    simpa [child_process, initChild] using this
  · exact child_loop_stop_at_max reg maxT q initChild hm

/-- Witness for C8 (amended), at max_task_count = 1 on the unknown-then-known
queue. -/
theorem claim_C8_witness :
    0 < 1 ∧
    (((child_process exampleRegistry false 1
          [undefinedTask, simpleTask]).2.processed_task_count =
        (invocations (child_process exampleRegistry false 1
          [undefinedTask, simpleTask]).2.trace).length) ∧
      ((child_process exampleRegistry false 1 [undefinedTask, simpleTask]).1
          ≠ [] →
        (child_process exampleRegistry false 1
          [undefinedTask, simpleTask]).2.processed_task_count = 1) ∧
      (child_process exampleRegistry false 2
          [simpleTask, simpleTaskB, failTask]).1 = [failTask] ∧
      (child_process exampleRegistry false 2
          [simpleTask, simpleTaskB, failTask]).2.outbound =
        [⟨simpleTask.id, .complete, none⟩,
         ⟨simpleTaskB.id, .complete, none⟩]) :=
  ⟨by decide,
   claim_C8_amended exampleRegistry 1 [undefinedTask, simpleTask] (by decide)⟩

/-- C9 counterexample: the claim says submitting the same activation id twice
always yields two independent executions and two ProcessingResults, with no
deduplication by id. For the at-most-once task it yields only one result and
one handler invocation — the duplicate delivery is deduplicated, as
test_child_process_at_most_once requires. -/
theorem claim_C9_counterexample :
    ¬ ((child_process exampleRegistry false 2
          [atMostOnceTask, atMostOnceTask]).2.outbound.length = 2) ∧
    (child_process exampleRegistry false 2
        [atMostOnceTask, atMostOnceTask]).2.outbound.length = 1 ∧
    invocations (child_process exampleRegistry false 2
        [atMostOnceTask, atMostOnceTask]).2.trace = [atMostOnceTask.id] := by
  refine ⟨by decide, by decide, by decide⟩

/-- C9 (amended): for every activation of a task that is not registered
at-most-once, submitting the same activation id twice results in two
independent executions and two ProcessingResults; only at-most-once tasks
are deduplicated by id. -/
theorem claim_C9_amended (reg : Registry) (act : TaskActivation)
    (t : RegisteredTask) (maxT : Nat)
    (h : lookup reg act.namespace_ act.taskname = some t)
    (ha : t.at_most_once = false) (hm : 2 ≤ maxT) :
    (child_process reg false maxT [act, act]).2.outbound =
      [⟨act.id, (run_handler t act).status, act.retry_state⟩,
       ⟨act.id, (run_handler t act).status, act.retry_state⟩] ∧
    invocations (child_process reg false maxT [act, act]).2.trace =
      [act.id, act.id] := by
  unfold child_process
  rw [child_loop]
  simp only [Bool.false_eq_true, if_false]
  rw [process_activation_exec reg act initChild t h ha]
  have h1 : ¬ maxT ≤ (1 : Nat) := by omega
  simp only [initChild]
  simp only [h1, if_false]
  rw [child_loop]
  simp only [Bool.false_eq_true, if_false]
  rw [process_activation_exec reg act _ t h ha]
  by_cases h2 : maxT ≤ 2
  · simp [h2]
  · simp [h2, child_loop]

/-- Witness for C9 (amended): the simple task delivered twice yields two
COMPLETE results. -/
theorem claim_C9_witness :
    lookup exampleRegistry simpleTask.namespace_ simpleTask.taskname =
      some { namespace_ := "examples", taskname := "examples.simple_task" } ∧
    ({ namespace_ := "examples",
       taskname := "examples.simple_task" : RegisteredTask }).at_most_once
      = false ∧
    (2 : Nat) ≤ 2 ∧
    ((child_process exampleRegistry false 2 [simpleTask, simpleTask]).2.outbound
        = [⟨simpleTask.id,
            (run_handler
              { namespace_ := "examples", taskname := "examples.simple_task" }
              simpleTask).status,
            simpleTask.retry_state⟩,
           ⟨simpleTask.id,
            (run_handler
              { namespace_ := "examples", taskname := "examples.simple_task" }
              simpleTask).status,
            simpleTask.retry_state⟩] ∧
      invocations (child_process exampleRegistry false 2
          [simpleTask, simpleTask]).2.trace = [simpleTask.id, simpleTask.id]) :=
  ⟨by decide, rfl, by omega,
   claim_C9_amended exampleRegistry simpleTask
     { namespace_ := "examples", taskname := "examples.simple_task" }
     2 (by decide) rfl (by omega)⟩

end Sentry
